import Mathlib

/-!
Verification of the authentication and authorization core of the CMS-API
repository against its natural-language specification.

The TypeScript source is shallowly embedded: each service method or guard
becomes a Lean function over explicit state (the Prisma-backed store becomes
a `Db` record, JavaScript objects become association lists or records with
`Option` fields for possibly-absent properties, argon2 hashing becomes a
salted constructor whose `verify` compares the preimage, and thrown
HTTP exceptions become `Except` errors).
-/

set_option maxHeartbeats 1000000

/-- Result of argon2 `hash(secret)`: salted (the `salt` component makes equal
secrets hash to different opaque values) and verifiable (`argonVerify` checks
the candidate against the preimage, as argon2 `verify(stored, candidate)`
does). -/
structure HashOf (α : Type) where
  preimage : α
  salt : Nat
deriving DecidableEq, Repr

/-- Embeds argon2 `hash(secret)` from the `argon2` package; the salt argument
models the nondeterministic salting. -/
def argonHash {α : Type} (secret : α) (salt : Nat) : HashOf α :=
  ⟨secret, salt⟩

/-- Embeds argon2 `verify(storedOpaque, candidate)`. -/
def argonVerify {α : Type} [BEq α] (stored : HashOf α) (candidate : α) : Bool :=
  stored.preimage == candidate

/-- JavaScript runtime values appearing as property values of the user objects
this development inspects (only the keys matter for the secret-stripping
claims, so a small universe suffices). -/
inductive JsVal where
  | vstr (s : String)
  | vbool (b : Bool)
  | vnull
  | vnum (n : Nat)
  | vhash (h : HashOf String)
deriving DecidableEq, Repr

/-- Row of the Prisma `Role` model (fields used by the embedded services). -/
structure Role where
  id : String
  name : String
  description : Option String
  isActive : Bool
deriving DecidableEq, Repr

/-- Row of the Prisma `Permission` model. -/
structure Permission where
  id : String
  name : String
  category : Option String
  isActive : Bool
deriving DecidableEq, Repr

/-- Row of the Prisma `User` model (fields used by the embedded services).
`password` stores the argon2 hash of the password; `hashedRefreshToken` is the
nullable argon2 hash of the currently valid refresh token. -/
structure UserRec where
  id : String
  email : String
  password : HashOf String
  name : String
  roleId : String
  isActive : Bool
  hashedRefreshToken : Option (HashOf String)
  lastLoginAt : Option Nat
deriving DecidableEq, Repr

/-- The Prisma-backed store: `User`, `Role`, `Permission` tables and the
`RolePermission` join table as (roleId, permissionId) pairs. -/
structure Db where
  users : List UserRec
  roles : List Role
  permissions : List Permission
  rolePermissions : List (String × String)
deriving DecidableEq, Repr

/-- Embeds the raw `prisma.user.findUnique(\x7b where: \x7b email \x7d \x7d)`:
the nullable row lookup by unique handle. The service-level
`UsersService.findByEmail` wraps this and throws on a missing row; callers
that use the Prisma client directly (such as the email-conflict check in
`UsersService.create`) see this nullable form. -/
def Db.findByEmail (db : Db) (email : String) : Option UserRec :=
  db.users.find? (fun u => u.email == email)

/-- Embeds `prisma.user.findUnique(\x7b where: \x7b id \x7d \x7d)`. -/
def Db.findById (db : Db) (id : String) : Option UserRec :=
  db.users.find? (fun u => u.id == id)

/-- Single-row update of the stored refresh-token hash, as performed by
`prisma.user.update(\x7b where: \x7b id \x7d, data: \x7b hashedRefreshToken \x7d \x7d)`. -/
def Db.setRefreshHash (db : Db) (id : String) (v : Option (HashOf String)) : Db :=
  { db with users := db.users.map (fun u =>
      if u.id == id then { u with hashedRefreshToken := v } else u) }

/-- Single-row update of `lastLoginAt` (`UsersService.updateLastLogin`). -/
def Db.setLastLogin (db : Db) (id : String) (t : Nat) : Db :=
  { db with users := db.users.map (fun u =>
      if u.id == id then { u with lastLoginAt := some t } else u) }

/-- Administrative activation or deactivation of an identity: sets the
`isActive` flag of the user with the given id. -/
def Db.setActive (db : Db) (id : String) (b : Bool) : Db :=
  { db with users := db.users.map (fun u =>
      if u.id == id then { u with isActive := b } else u) }

/-- Errors of the embedded services, mirroring the NestJS exception classes
thrown by the source (`UnauthorizedException`, `ConflictException`,
`BadRequestException`, `NotFoundException`) and the Prisma record-not-found
error raised by `update` on a missing row. -/
inductive AuthError where
  | unauthorized (msg : String)
  | conflict (msg : String)
  | badRequest (msg : String)
  | notFound (msg : String)
  | recordNotFound
deriving DecidableEq, Repr

/-! ## Guards (Policy Evaluator)

The request context user populated by the passport strategies.  The guards
handle two historical shapes of `user.role` (a bare role-name string from the
JWT payload, or a role object with a `name` and a `permissions` relation from
the database), so `role` is embedded as a sum.  `Option` models property
absence (`undefined`). -/

/-- Element of the `role.permissions` relation as included by Prisma:
an object `\x7b permission: \x7b name, ... \x7d \x7d`. -/
structure RolePermEntry where
  permissionName : String
deriving DecidableEq, Repr

/-- The possible JavaScript shapes of `user.role` observed by the guards:
a string (new JWT shape), an object with optional `name` and optional
`permissions` relation (database shape), or `undefined`/`null`. -/
inductive RoleField where
  | rstr (s : String)
  | robj (name : Option String) (permissions : Option (List RolePermEntry))
  | rnull
deriving DecidableEq, Repr

/-- The `request.user` object consulted by the guards. -/
structure RequestUser where
  id : String := ""
  email : String := ""
  role : RoleField
  permissions : Option (List String) := none
deriving DecidableEq, Repr

/-- Embeds the role-name extraction in `RolesGuard.canActivate`:
the role name is the value itself when `user.role` is a string, else the
`name` property of the role object (`none` is the JavaScript `undefined`
result). -/
def RequestUser.userRoleName (u : RequestUser) : Option String :=
  match u.role with
  | .rstr s => some s
  | .robj name _ => name
  | .rnull => none

/-- Embeds `RolesGuard.canActivate` (src/common/guards/roles.guard.ts):
`requiredRoles = none` is absent `roles` metadata (`if (!requiredRoles)
return true`); a missing `request.user` denies; otherwise the guard returns
`requiredRoles.includes(userRole)`, where `includes(undefined)` is false. -/
def RolesGuard.canActivate (requiredRoles : Option (List String))
    (user : Option RequestUser) : Bool :=
  match requiredRoles with
  | none => true
  | some rs =>
    match user with
    | none => false
    | some u =>
      match u.userRoleName with
      | some r => rs.contains r
      | none => false

/-- The flattened permission-name list of the database-shaped role object:
`user.role.permissions.map((rp) => rp.permission.name)`, `none` when
`user.role` is not an object carrying a `permissions` relation. -/
def RequestUser.rolePermissionNames? (u : RequestUser) : Option (List String) :=
  match u.role with
  | .robj _ (some rpl) => some (rpl.map RolePermEntry.permissionName)
  | _ => none

/-- Embeds `PermissionsGuard.canActivate`
(src/common/guards/permissions.guard.ts): absent `permissions` metadata
allows; `if (!user || !user.role || !user.role.permissions) return false`;
otherwise `requiredPermissions.some((p) => userPermissions.includes(p))` over
the flattened names. -/
def PermissionsGuard.canActivate (requiredPermissions : Option (List String))
    (user : Option RequestUser) : Bool :=
  match requiredPermissions with
  | none => true
  | some ps =>
    match user with
    | none => false
    | some u =>
      match u.rolePermissionNames? with
      | some names => ps.any (fun p => names.contains p)
      | none => false

/-- Embeds the permission-list selection of the variant `PermissionsGuard`
(src/unnamed/part_004): prefer the flat `user.permissions` array of the new
JWT shape, fall back to the database shape `user.role?.permissions`, else the
empty list. -/
def RequestUser.effectivePermissions (u : RequestUser) : List String :=
  match u.permissions with
  | some arr => arr
  | none =>
    match u.rolePermissionNames? with
    | some names => names
    | none => []

/-- Embeds the variant `PermissionsGuard.canActivate` (src/unnamed/part_004),
which handles both user shapes and treats a malformed context as an empty
permission list. -/
def PermissionsGuardJwt.canActivate (requiredPermissions : Option (List String))
    (user : Option RequestUser) : Bool :=
  match requiredPermissions with
  | none => true
  | some ps =>
    match user with
    | none => false
    | some u => ps.any (fun p => u.effectivePermissions.contains p)

/-- Request context seen by `CombinedAuthGuard`: the outcome of
`jwtGuard.canActivate`, the `request.user` it populated, and the `roles` and
`permissions` metadata declared on the route. -/
structure RequestCtx where
  jwtAuthenticated : Bool
  user : Option RequestUser
  requiredRoles : Option (List String)
  requiredPermissions : Option (List String)
deriving Repr

/-- Sub-guards invoked by `CombinedAuthGuard.canActivate`, in invocation
order, used to record which checks a run evaluated. -/
inductive GuardStep where
  | jwt
  | roles
  | perms
deriving DecidableEq, Repr

/-- Embeds `CombinedAuthGuard.canActivate`
(src/common/guards/combined-auth.guard.ts), additionally returning the list
of sub-guards the run evaluated: JWT authentication first, then `RolesGuard`,
then `PermissionsGuard`, returning false at the first denial. -/
def CombinedAuthGuard.canActivateTrace (ctx : RequestCtx) :
    Bool × List GuardStep :=
  if ctx.jwtAuthenticated = false then
    (false, [GuardStep.jwt])
  else if RolesGuard.canActivate ctx.requiredRoles ctx.user = false then
    (false, [GuardStep.jwt, GuardStep.roles])
  else if PermissionsGuard.canActivate ctx.requiredPermissions ctx.user = false then
    (false, [GuardStep.jwt, GuardStep.roles, GuardStep.perms])
  else
    (true, [GuardStep.jwt, GuardStep.roles, GuardStep.perms])

/-- The boolean decision of `CombinedAuthGuard.canActivate`. -/
def CombinedAuthGuard.canActivate (ctx : RequestCtx) : Bool :=
  (CombinedAuthGuard.canActivateTrace ctx).1

/-- C2: the role check allows when no required-roles set is declared (the
no-restriction state, absent `roles` metadata); with a declared non-empty set
it denies when there is no authenticated identity, and for an identity whose
role name resolves to `r` it allows exactly when `r` is a member of the set
under case-sensitive string equality. -/
theorem rolesGuard_canActivate_spec (u : Option RequestUser)
    (rs : List String) (ru : RequestUser) (r : String) :
    RolesGuard.canActivate none u = true ∧
    RolesGuard.canActivate (some rs) none = false ∧
    (rs ≠ [] → ru.userRoleName = some r →
      (RolesGuard.canActivate (some rs) (some ru) = true ↔ r ∈ rs)) := by
  refine ⟨rfl, rfl, fun _ hr => ?_⟩
  simp only [RolesGuard.canActivate, hr, List.contains, List.elem_iff]

/-- Concrete request user with the bare-string role shape, for witnesses. -/
def doctorStrUser : RequestUser :=
  { role := RoleField.rstr "doctor" }

/-- Concrete request user with the database role shape carrying the flattened
permissions view_patients and create_medical_records, for witnesses. -/
def doctorObjUser : RequestUser :=
  { role := RoleField.robj (some "doctor")
      (some [⟨"view_patients"⟩, ⟨"create_medical_records"⟩]) }

/-- C2 witness: a doctor identity against the required set
containing admin and doctor is allowed; the guard is evaluated at fully
concrete inputs through `rolesGuard_canActivate_spec`. -/
theorem rolesGuard_canActivate_spec_witness :
    RolesGuard.canActivate (some ["admin", "doctor"])
      (some doctorStrUser) = true :=
  ((rolesGuard_canActivate_spec none ["admin", "doctor"]
      doctorStrUser "doctor").2.2
    (by decide) rfl).mpr (by decide)

/-- C3: both permission guards allow when no required-permissions set is
declared and deny when the identity context is missing; the primary guard
denies a malformed context (no database-shaped `role.permissions` relation),
and on a well-formed context each guard allows exactly when the flattened
permission-name list meets the required set (OR semantics). -/
theorem permissionsGuard_canActivate_spec (u : Option RequestUser)
    (ps : List String) (ru : RequestUser) :
    (PermissionsGuard.canActivate none u = true ∧
      PermissionsGuardJwt.canActivate none u = true) ∧
    (PermissionsGuard.canActivate (some ps) none = false ∧
      PermissionsGuardJwt.canActivate (some ps) none = false) ∧
    (ru.rolePermissionNames? = none →
      PermissionsGuard.canActivate (some ps) (some ru) = false) ∧
    (∀ names, ru.rolePermissionNames? = some names →
      (PermissionsGuard.canActivate (some ps) (some ru) = true ↔
        ∃ p ∈ ps, p ∈ names)) ∧
    (PermissionsGuardJwt.canActivate (some ps) (some ru) = true ↔
      ∃ p ∈ ps, p ∈ ru.effectivePermissions) := by
  refine ⟨⟨rfl, rfl⟩, ⟨rfl, rfl⟩, fun hm => ?_, fun names hn => ?_, ?_⟩
  · simp only [PermissionsGuard.canActivate, hm]
  · simp only [PermissionsGuard.canActivate, hn, List.any_eq_true,
      List.contains, List.elem_iff]
  · simp only [PermissionsGuardJwt.canActivate, List.any_eq_true,
      List.contains, List.elem_iff]

/-- C3 witness: the spec example evaluated concretely through
`permissionsGuard_canActivate_spec`: the doctor identity with permissions
view_patients and create_medical_records meets the requirement
create_medical_records and misses the requirement manage_roles. -/
theorem permissionsGuard_canActivate_spec_witness :
    PermissionsGuard.canActivate (some ["create_medical_records"])
      (some doctorObjUser) = true ∧
    PermissionsGuard.canActivate (some ["manage_roles"])
      (some doctorObjUser) = false := by
  constructor
  · exact ((permissionsGuard_canActivate_spec none ["create_medical_records"]
      doctorObjUser).2.2.2.1
      ["view_patients", "create_medical_records"] rfl).mpr
      ⟨"create_medical_records", by decide, by decide⟩
  · have h := ((permissionsGuard_canActivate_spec none ["manage_roles"]
      doctorObjUser).2.2.2.1
      ["view_patients", "create_medical_records"] rfl)
    by_cases hc : PermissionsGuard.canActivate (some ["manage_roles"])
      (some doctorObjUser) = true
    · rcases h.mp hc with ⟨p, hp, hpm⟩
      simp only [List.mem_singleton] at hp
      subst hp
      simp at hpm
    · simpa using hc

/-- C7: the composed guard allows exactly when JWT authentication succeeds
and the role check allows and the permission check allows; its run evaluates
the role check before the permission check and, whenever the role check
denies, the permission check is never evaluated. -/
theorem combinedAuthGuard_and_shortcircuit (ctx : RequestCtx) :
    CombinedAuthGuard.canActivate ctx =
      (ctx.jwtAuthenticated &&
        RolesGuard.canActivate ctx.requiredRoles ctx.user &&
        PermissionsGuard.canActivate ctx.requiredPermissions ctx.user) ∧
    (RolesGuard.canActivate ctx.requiredRoles ctx.user = false →
      GuardStep.perms ∉ (CombinedAuthGuard.canActivateTrace ctx).2) := by
  cases h1 : ctx.jwtAuthenticated <;>
    cases h2 : RolesGuard.canActivate ctx.requiredRoles ctx.user <;>
      cases h3 : PermissionsGuard.canActivate ctx.requiredPermissions ctx.user <;>
        simp [CombinedAuthGuard.canActivate, CombinedAuthGuard.canActivateTrace,
          h1, h2, h3]

/-- Concrete request context for the composed-guard witness: an
authenticated patient-role identity against a route requiring the admin role
and the manage_roles permission. -/
def patientAdminCtx : RequestCtx :=
  { jwtAuthenticated := true,
    user := some { role := RoleField.rstr "patient" },
    requiredRoles := some ["admin"],
    requiredPermissions := some ["manage_roles"] }

/-- C7 witness: for a request authenticated as a patient-role identity
against a route requiring the admin role, the composed guard
(evaluated through `combinedAuthGuard_and_shortcircuit` at this concrete
context) denies and its run never evaluates the permission check. -/
theorem combinedAuthGuard_and_shortcircuit_witness :
    CombinedAuthGuard.canActivate patientAdminCtx = false ∧
    GuardStep.perms ∉ (CombinedAuthGuard.canActivateTrace patientAdminCtx).2 := by
  constructor
  · rw [(combinedAuthGuard_and_shortcircuit patientAdminCtx).1]
    decide
  · exact (combinedAuthGuard_and_shortcircuit patientAdminCtx).2 (by decide)

/-! ## Token Issuer and Session Rotator (AuthService) -/

/-- The claims payload type declared in src/common/types/auth-jwtPayload.d.ts.
The declaration marks `role` and `permissions` as required, but the objects
flowing through at runtime carry them only when the signer put them there, so
they are embedded as `Option` (absence is the JavaScript `undefined`);
`iat` and `exp` are stamped by the JWT signer. -/
structure AuthJwtPayload where
  sub : String
  email : String
  role : Option String := none
  permissions : Option (List String) := none
  iat : Option Nat := none
  exp : Option Nat := none
deriving DecidableEq, Repr

/-- A signed JWT: the embedded readable claims plus the secret that signed it
(standing for the signature, which only the matching secret verifies). -/
structure SignedToken where
  claims : AuthJwtPayload
  secret : String
deriving DecidableEq, Repr

/-- Embeds `jwtService.signAsync(payload, \x7b secret, expiresIn \x7d)`: the
signer copies the payload, stamps `iat` with the current time and `exp` with
now plus the configured lifetime, and signs with the given secret. -/
def jwtSign (payload : AuthJwtPayload) (secret : String) (expiresIn : Nat)
    (now : Nat) : SignedToken :=
  { claims := { payload with iat := some now, exp := some (now + expiresIn) },
    secret := secret }

/-- Embeds the passport-jwt verification (secret comparison and, because
`ignoreExpiration` is false, the expiry check) run before the validate
callback of a strategy. -/
def jwtVerify (tok : SignedToken) (secret : String) (now : Nat) :
    Option AuthJwtPayload :=
  if tok.secret == secret then
    match tok.claims.exp with
    | some e => if now < e then some tok.claims else none
    | none => some tok.claims
  else none

/-- Configuration surface consumed by the issuer: the two signing secrets and
the two expiry durations (src/config jwt and refresh configs). -/
structure JwtConfig where
  jwtSecret : String
  jwtExpiresIn : Nat
  refreshSecret : String
  refreshExpiresIn : Nat
deriving DecidableEq, Repr

/-- The token pair returned by `AuthService.generateTokens`. -/
structure TokenPair where
  accessToken : SignedToken
  refreshToken : SignedToken
deriving DecidableEq, Repr

/-- Embeds `AuthService.generateTokens` (src/auth/auth.service.ts lines
119 to 134): the payload object literal is `\x7b sub: userId, email \x7d` — it
carries no `role` and no `permissions` property — and both tokens are signed
from that same payload with the two distinct secrets and expiries. -/
def AuthService.generateTokens (userId email : String) (cfg : JwtConfig)
    (now : Nat) : TokenPair :=
  let payload : AuthJwtPayload := { sub := userId, email := email }
  { accessToken := jwtSign payload cfg.jwtSecret cfg.jwtExpiresIn now,
    refreshToken := jwtSign payload cfg.refreshSecret cfg.refreshExpiresIn now }

/-- Opaque serialized string of a signed token, as handed to clients and as
fed to argon2 when a refresh token is hashed for storage. -/
def SignedToken.encode (t : SignedToken) : String :=
  t.claims.sub ++ "." ++ t.claims.email ++ "." ++
    toString (t.claims.iat.getD 0) ++ "." ++ toString (t.claims.exp.getD 0) ++
    "." ++ t.secret

/-- Embeds `AuthService.updateRefreshToken` (the Session Rotator rotate,
src/auth/auth.service.ts lines 136 to 142): hashes the new refresh token and
overwrites the stored hash with a single row update; `prisma.user.update` on
a missing row raises. -/
def AuthService.updateRefreshToken (db : Db) (userId refreshToken : String)
    (salt : Nat) : Except AuthError Db :=
  match db.findById userId with
  | none => .error .recordNotFound
  | some _ =>
    .ok (db.setRefreshHash userId (some (argonHash refreshToken salt)))

/-- The stored-hash check performed by `AuthService.refresh` (the spec
operation verifyPresented): load the user, return false when the user is
absent or no hash is stored, else argon2-verify the presented token against
the stored hash. -/
def AuthService.verifyPresented (db : Db) (userId presented : String) : Bool :=
  match db.findById userId with
  | none => false
  | some u =>
    match u.hashedRefreshToken with
    | none => false
    | some h => argonVerify h presented

/-- Embeds `AuthService.logout` (src/auth/auth.service.ts lines 93 to 99):
sets the stored refresh-token hash to null. -/
def AuthService.logout (db : Db) (userId : String) : Except AuthError Db :=
  match db.findById userId with
  | none => .error .recordNotFound
  | some _ => .ok (db.setRefreshHash userId none)

/-- Embeds `AuthService.refresh` (src/auth/auth.service.ts lines 69 to 91):
rejects with Access denied when the user is missing, when no hash is stored,
or when the presented token fails verification; otherwise mints a fresh pair
and rotates the stored hash. -/
def AuthService.refresh (db : Db) (userId presented : String)
    (cfg : JwtConfig) (now salt : Nat) : Except AuthError (TokenPair × Db) :=
  match db.findById userId with
  | none => .error (.unauthorized "Access denied")
  | some u =>
    match u.hashedRefreshToken with
    | none => .error (.unauthorized "Access denied")
    | some h =>
      if argonVerify h presented = false then
        .error (.unauthorized "Access denied")
      else
        match AuthService.updateRefreshToken db u.id
            (AuthService.generateTokens u.id u.email cfg
              now).refreshToken.encode salt with
        | .error e => .error e
        | .ok db2 => .ok (AuthService.generateTokens u.id u.email cfg now, db2)

/-- Concrete token configuration used by the witnesses: 15-minute access
expiry, 7-day refresh expiry, distinct secrets. -/
def cfg0 : JwtConfig :=
  { jwtSecret := "access-secret", jwtExpiresIn := 900,
    refreshSecret := "refresh-secret", refreshExpiresIn := 604800 }

/-- C1: evaluation of the issuance path at a concrete identity. The claims
actually signed into both tokens carry the subject, the handle, issued-at
and expires-at, but no role name and no permission-name list: the object
literal in `AuthService.generateTokens` is only `\x7b sub, email \x7d`, at odds
with the `AuthJwtPayload` declaration and with `JwtStrategy.validate`, which
read `payload.role` and `payload.permissions`. -/
theorem generateTokens_payload_missing_role_and_permissions :
    (AuthService.generateTokens "u1" "u1@example.com" cfg0 1000).accessToken.claims.sub = "u1" ∧
    (AuthService.generateTokens "u1" "u1@example.com" cfg0 1000).accessToken.claims.email = "u1@example.com" ∧
    (AuthService.generateTokens "u1" "u1@example.com" cfg0 1000).accessToken.claims.iat = some 1000 ∧
    (AuthService.generateTokens "u1" "u1@example.com" cfg0 1000).accessToken.claims.exp = some 1900 ∧
    (AuthService.generateTokens "u1" "u1@example.com" cfg0 1000).accessToken.claims.role = none ∧
    (AuthService.generateTokens "u1" "u1@example.com" cfg0 1000).accessToken.claims.permissions = none ∧
    (AuthService.generateTokens "u1" "u1@example.com" cfg0 1000).refreshToken.claims.role = none ∧
    (AuthService.generateTokens "u1" "u1@example.com" cfg0 1000).refreshToken.claims.permissions = none :=
  ⟨rfl, rfl, rfl, rfl, rfl, rfl, rfl, rfl⟩

/-- Finding a user after a refresh-hash update: the lookup returns the same
row, with the new hash when the row is the updated one. -/
theorem findById_setRefreshHash (db : Db) (id x : String)
    (v : Option (HashOf String)) :
    (db.setRefreshHash id v).findById x =
      (db.findById x).map (fun u =>
        if u.id == id then { u with hashedRefreshToken := v } else u) := by
  unfold Db.setRefreshHash Db.findById
  rw [List.find?_map]
  have hp : ((fun u : UserRec => u.id == x) ∘ (fun u : UserRec =>
      if u.id == id then { u with hashedRefreshToken := v } else u)) =
      (fun u : UserRec => u.id == x) := by
    funext u
    cases h : u.id == id <;> simp [Function.comp, h]
  rw [hp]

/-- Symmetry of string equality testing, used to orient verification
results. -/
theorem string_beq_comm (a b : String) : (a == b) = (b == a) := by
  rw [Bool.eq_iff_iff]
  simp only [beq_iff_eq]
  exact eq_comm


/-- A successful id lookup pins the row id: the found row satisfies the
lookup predicate. -/
theorem findById_some (db : Db) (id : String) (u : UserRec)
    (h : db.findById id = some u) : (u.id == id) = true := by
  unfold Db.findById at h
  have hs := List.find?_some h
  simpa using hs

/-- Updating the refresh hash of one row does not change which lookups succeed. -/
theorem findById_isSome_setRefreshHash (db : Db) (id x : String)
    (v : Option (HashOf String)) :
    ((db.setRefreshHash id v).findById x).isSome = (db.findById x).isSome := by
  rw [findById_setRefreshHash]
  cases db.findById x <;> rfl

/-- After storing a refresh hash for an existing identity, the stored-hash
check for that identity is exactly argon2 verification against that hash. -/
theorem verifyPresented_setRefreshHash (db : Db) (id : String)
    (hh : HashOf String) (t : String)
    (hex : (db.findById id).isSome = true) :
    AuthService.verifyPresented (db.setRefreshHash id (some hh)) id t =
      argonVerify hh t := by
  unfold AuthService.verifyPresented
  rw [findById_setRefreshHash]
  cases hf : db.findById id with
  | none => rw [hf] at hex; simp at hex
  | some u =>
    have hid : u.id = id := by simpa using findById_some db id u hf
    simp [hid]

/-- After clearing the stored refresh hash of an identity, every stored-hash
check for that identity fails. -/
theorem verifyPresented_clearRefreshHash (db : Db) (id t : String) :
    AuthService.verifyPresented (db.setRefreshHash id none) id t = false := by
  unfold AuthService.verifyPresented
  rw [findById_setRefreshHash]
  cases hf : db.findById id with
  | none => simp
  | some u =>
    have hid : u.id = id := by simpa using findById_some db id u hf
    simp [hid]

/-- A successful rotate call pins down the produced store and the existence
of the row it updated. -/
theorem updateRefreshToken_ok (db db' : Db) (id tok : String) (salt : Nat)
    (h : AuthService.updateRefreshToken db id tok salt = .ok db') :
    db' = db.setRefreshHash id (some (argonHash tok salt)) ∧
      (db.findById id).isSome = true := by
  unfold AuthService.updateRefreshToken at h
  cases hf : db.findById id with
  | none => rw [hf] at h; exact absurd h (by simp)
  | some u =>
    rw [hf] at h
    simp only [Except.ok.injEq] at h
    exact ⟨h.symm, rfl⟩

/-- C4 (amended): rotating twice leaves exactly the second token verifiable.
After rotate(id, tokenA) then rotate(id, tokenB), a presented token verifies
if and only if it equals tokenB; hence verifyPresented(id, tokenB) is true,
and verifyPresented(id, tokenA) is false whenever tokenA differs from tokenB
(the stored refresh-token hash is a single overwritten cell, so at most one
refresh token per identity is verifiable at any time). -/
theorem rotate_rotate_last_token_wins (db db1 db2 : Db)
    (id tokenA tokenB : String) (saltA saltB : Nat)
    (h1 : AuthService.updateRefreshToken db id tokenA saltA = .ok db1)
    (h2 : AuthService.updateRefreshToken db1 id tokenB saltB = .ok db2) :
    (∀ t, AuthService.verifyPresented db2 id t = (t == tokenB)) ∧
    AuthService.verifyPresented db2 id tokenB = true ∧
    (tokenA ≠ tokenB → AuthService.verifyPresented db2 id tokenA = false) := by
  obtain ⟨he1, hex1⟩ := updateRefreshToken_ok db db1 id tokenA saltA h1
  obtain ⟨he2, hex2⟩ := updateRefreshToken_ok db1 db2 id tokenB saltB h2
  have main : ∀ t, AuthService.verifyPresented db2 id t = (t == tokenB) := by
    intro t
    rw [he2, verifyPresented_setRefreshHash db1 id _ t hex2]
    simp only [argonVerify, argonHash]
    exact string_beq_comm tokenB t
  refine ⟨main, ?_, fun hne => ?_⟩
  · rw [main tokenB]
    simp
  · rw [main tokenA]
    exact beq_eq_false_iff_ne.mpr hne

/-- Concrete identity used by the witnesses: one active user with a stored
password hash and no refresh session yet. -/
def demoUser : UserRec :=
  { id := "u1", email := "u1@example.com", password := argonHash "pw" 0,
    name := "User One", roleId := "r1", isActive := true,
    hashedRefreshToken := none, lastLoginAt := none }

/-- Concrete store holding only `demoUser`. -/
def demoDb : Db :=
  { users := [demoUser], roles := [], permissions := [], rolePermissions := [] }

/-- Store after rotating in token tokA for `demoUser`. -/
def demoDb1 : Db := demoDb.setRefreshHash "u1" (some (argonHash "tokA" 0))

/-- Store after further rotating in token tokB for `demoUser`. -/
def demoDb2 : Db := demoDb1.setRefreshHash "u1" (some (argonHash "tokB" 1))

/-- C4 witness: the two rotations evaluate to the expected stores, and
`rotate_rotate_last_token_wins` applied there shows tokB verifies and tokA
no longer does. -/
theorem rotate_rotate_last_token_wins_witness :
    AuthService.verifyPresented demoDb2 "u1" "tokB" = true ∧
    AuthService.verifyPresented demoDb2 "u1" "tokA" = false :=
  ⟨(rotate_rotate_last_token_wins demoDb demoDb1 demoDb2 "u1" "tokA" "tokB"
      0 1 rfl rfl).2.1,
   (rotate_rotate_last_token_wins demoDb demoDb1 demoDb2 "u1" "tokA" "tokB"
      0 1 rfl rfl).2.2 (by decide)⟩

/-- Store after rotating in the token tok for `demoUser`. -/
def demoDb1s : Db := demoDb.setRefreshHash "u1" (some (argonHash "tok" 0))

/-- Store after rotating in the same token tok again for `demoUser`. -/
def demoDb2s : Db := demoDb1s.setRefreshHash "u1" (some (argonHash "tok" 1))

/-- C4 counterexample to the claim as literally stated, at the concrete input
tokenA = tokenB = tok: after rotate(u1, tok) followed by rotate(u1, tok),
verifyPresented(u1, tokenA) is true, not false as the universally quantified
claim would require. -/
theorem rotate_rotate_same_token_counterexample :
    AuthService.updateRefreshToken demoDb "u1" "tok" 0 = .ok demoDb1s ∧
    AuthService.updateRefreshToken demoDb1s "u1" "tok" 1 = .ok demoDb2s ∧
    AuthService.verifyPresented demoDb2s "u1" "tok" = true :=
  ⟨rfl, rfl, by decide⟩

/-- A successful logout pins down the produced store. -/
theorem logout_ok (db db' : Db) (id : String)
    (h : AuthService.logout db id = .ok db') :
    db' = db.setRefreshHash id none := by
  unfold AuthService.logout at h
  cases hf : db.findById id with
  | none => rw [hf] at h; exact absurd h (by simp)
  | some u =>
    rw [hf] at h
    simp only [Except.ok.injEq] at h
    exact h.symm

/-- C5: after logout clears the stored refresh-token hash of an identity,
every presented refresh token fails the stored-hash check for that identity,
and every refresh attempt is rejected with the uniform Access denied error,
whatever the presented token, the clock, or the configuration. -/
theorem logout_invalidates_all_refresh_tokens (db db' : Db) (id : String)
    (h : AuthService.logout db id = .ok db') :
    ∀ (tok : String) (cfg : JwtConfig) (now salt : Nat),
      AuthService.verifyPresented db' id tok = false ∧
      AuthService.refresh db' id tok cfg now salt =
        .error (.unauthorized "Access denied") := by
  intro tok cfg now salt
  have he := logout_ok db db' id h
  subst he
  refine ⟨verifyPresented_clearRefreshHash db id tok, ?_⟩
  unfold AuthService.refresh
  rw [findById_setRefreshHash]
  cases hf : db.findById id with
  | none => simp
  | some u =>
    have hid : u.id = id := by simpa using findById_some db id u hf
    simp [hid]

/-- Store after logging `demoUser` out of the session stored in `demoDb2`. -/
def demoDbLoggedOut : Db := demoDb2.setRefreshHash "u1" none

/-- C5 witness: `logout_invalidates_all_refresh_tokens` applied to the
concrete logged-out store: even the most recently rotated token tokB no
longer verifies and its refresh attempt is rejected. -/
theorem logout_invalidates_all_refresh_tokens_witness :
    AuthService.verifyPresented demoDbLoggedOut "u1" "tokB" = false ∧
    AuthService.refresh demoDbLoggedOut "u1" "tokB" cfg0 2000 5 =
      .error (.unauthorized "Access denied") :=
  logout_invalidates_all_refresh_tokens demoDb2 demoDbLoggedOut "u1" rfl
    "tokB" cfg0 2000 5

/-! ## Login, registration and secret stripping (AuthService, UsersService) -/

/-- The user row as the JavaScript object returned from the store, secrets
included: every scalar property of the Prisma `User` model. -/
def UserRec.toObj (u : UserRec) : List (String × JsVal) :=
  [("id", JsVal.vstr u.id),
   ("email", JsVal.vstr u.email),
   ("password", JsVal.vhash u.password),
   ("name", JsVal.vstr u.name),
   ("roleId", JsVal.vstr u.roleId),
   ("isActive", JsVal.vbool u.isActive),
   ("hashedRefreshToken",
     match u.hashedRefreshToken with
     | some h => JsVal.vhash h
     | none => JsVal.vnull),
   ("lastLoginAt",
     match u.lastLoginAt with
     | some t => JsVal.vnum t
     | none => JsVal.vnull)]

/-- Embeds `AuthService.excludePassword` (src/auth/auth.service.ts lines
144 to 147): the rest-destructuring that drops the `password` and
`hashedRefreshToken` properties and keeps every other property. -/
def AuthService.excludePassword (user : List (String × JsVal)) :
    List (String × JsVal) :=
  user.filter (fun kv =>
    !(kv.1 == "password") && !(kv.1 == "hashedRefreshToken"))

/-- The response of a successful login or registration: the secret-stripped
user object together with the freshly minted token pair. -/
structure LoginResult where
  user : List (String × JsVal)
  accessToken : SignedToken
  refreshToken : SignedToken
deriving DecidableEq, Repr

/-- Embeds the operative `UsersService.findByEmail` (src/unnamed/part_011,
first revision — the revision whose `changePassword` the users controller
calls): `prisma.user.findUnique` by email, then `if (!user) throw new
NotFoundException(User not found)`; the found row is returned as is. -/
def UsersService.findByEmail (db : Db) (email : String) :
    Except AuthError UserRec :=
  match db.findByEmail email with
  | none => .error (.notFound "User not found")
  | some user => .ok user

/-- Embeds `AuthService.login` (src/auth/auth.service.ts lines 42 to 67):
the handle lookup delegates to `UsersService.findByEmail`, whose
`NotFoundException` on an unknown handle propagates to the caller (the
`!user` half of the in-code `if (!user || !user.isActive)` check is dead
against this throwing lookup); an inactive identity and a password mismatch
throw `UnauthorizedException` with message Invalid credentials; on success
it touches lastLoginAt, mints tokens, rotates the stored refresh hash and
returns the secret-stripped user with the tokens. -/
def AuthService.login (db : Db) (email password : String) (cfg : JwtConfig)
    (now salt : Nat) : Except AuthError (LoginResult × Db) :=
  match UsersService.findByEmail db email with
  | .error e => .error e
  | .ok user =>
    if user.isActive = false then .error (.unauthorized "Invalid credentials")
    else if argonVerify user.password password = false then
      .error (.unauthorized "Invalid credentials")
    else
      match AuthService.updateRefreshToken (db.setLastLogin user.id now)
          user.id (AuthService.generateTokens user.id user.email cfg
            now).refreshToken.encode salt with
      | .error e => .error e
      | .ok db2 =>
        .ok ({ user := AuthService.excludePassword user.toObj,
               accessToken :=
                 (AuthService.generateTokens user.id user.email cfg
                   now).accessToken,
               refreshToken :=
                 (AuthService.generateTokens user.id user.email cfg
                   now).refreshToken }, db2)

/-- Embeds `AuthService.validateUser` (src/auth/auth.service.ts lines 149 to
156): returns the secret-stripped user when the handle resolves, the
identity is active and the password verifies, else null. The missing-row
error thrown by the service-level lookup is collapsed to the null outcome
here; that branch is immaterial to the success-path property proved about
this function, which the two lookup forms reach identically. -/
def AuthService.validateUser (db : Db) (email password : String) :
    Option (List (String × JsVal)) :=
  match db.findByEmail email with
  | none => none
  | some user =>
    if user.isActive && argonVerify user.password password then
      some (AuthService.excludePassword user.toObj)
    else none

/-- Registration input (`CreateUserDto`). -/
structure CreateUserDto where
  email : String
  password : String
  name : String
  roleId : String
deriving DecidableEq, Repr

/-- Embeds `UsersService.create`: conflict when the email is taken, bad
request when the role is missing or inactive, else creates the row with the
hashed password and returns it with the `password` property removed from the
response object (the row itself keeps the hash). The store assigns the new
row id. -/
def UsersService.create (db : Db) (dto : CreateUserDto) (newId : String)
    (salt : Nat) : Except AuthError (UserRec × List (String × JsVal) × Db) :=
  match db.findByEmail dto.email with
  | some _ => .error (.conflict "User with this email already exists")
  | none =>
    match db.roles.find? (fun r => r.id == dto.roleId && r.isActive) with
    | none => .error (.badRequest "Invalid or inactive role")
    | some _ =>
      let newUser : UserRec :=
        { id := newId, email := dto.email,
          password := argonHash dto.password salt, name := dto.name,
          roleId := dto.roleId, isActive := true,
          hashedRefreshToken := none, lastLoginAt := none }
      .ok (newUser,
        newUser.toObj.filter (fun kv => !(kv.1 == "password")),
        { db with users := db.users ++ [newUser] })

/-- Embeds `AuthService.register` (src/auth/auth.service.ts lines 28 to 40):
delegates creation to `UsersService.create`, mints tokens, rotates the
stored refresh hash and returns the secret-stripped user with the tokens. -/
def AuthService.register (db : Db) (dto : CreateUserDto) (newId : String)
    (cfg : JwtConfig) (now saltP saltR : Nat) :
    Except AuthError (LoginResult × Db) :=
  match UsersService.create db dto newId saltP with
  | .error e => .error e
  | .ok (user, userResponse, db1) =>
    match AuthService.updateRefreshToken db1 user.id
        (AuthService.generateTokens user.id user.email cfg
          now).refreshToken.encode saltR with
    | .error e => .error e
    | .ok db2 =>
      .ok ({ user := AuthService.excludePassword userResponse,
             accessToken :=
               (AuthService.generateTokens user.id user.email cfg
                 now).accessToken,
             refreshToken :=
               (AuthService.generateTokens user.id user.email cfg
                 now).refreshToken }, db2)

/-- Inactive concrete identity for the C6 evaluation. -/
def inactiveUser : UserRec :=
  { id := "u2", email := "u2@example.com", password := argonHash "pw2" 0,
    name := "User Two", roleId := "r1", isActive := false,
    hashedRefreshToken := none, lastLoginAt := none }

/-- Concrete store with one active and one inactive identity. -/
def demoDbC6 : Db :=
  { users := [demoUser, inactiveUser], roles := [], permissions := [],
    rolePermissions := [] }

/-- C6: evaluation of login at the three credential-rejection sub-reasons in
one concrete store. An unknown handle surfaces the `NotFoundException` with
message User not found thrown by `UsersService.findByEmail`, while an
inactive identity and a password mismatch return `UnauthorizedException`
with message Invalid credentials: the outcomes are distinct error values, so
the unknown-handle sub-reason is observable from the response, contrary to
the claim and to the anti-enumeration intent of the spec. -/
theorem login_unknown_handle_not_uniform :
    AuthService.login demoDbC6 "nobody@example.com" "pw" cfg0 0 0 =
      .error (.notFound "User not found") ∧
    AuthService.login demoDbC6 "u2@example.com" "pw2" cfg0 0 0 =
      .error (.unauthorized "Invalid credentials") ∧
    AuthService.login demoDbC6 "u1@example.com" "wrong" cfg0 0 0 =
      .error (.unauthorized "Invalid credentials") ∧
    AuthError.notFound "User not found" ≠
      AuthError.unauthorized "Invalid credentials" :=
  ⟨rfl, rfl, rfl, by decide⟩

/-- Key-level effect of the rest-destructuring: whatever object it is applied
to, the result holds no password property and no hashedRefreshToken
property. -/
theorem excludePassword_lookup (l : List (String × JsVal)) :
    (AuthService.excludePassword l).lookup "password" = none ∧
    (AuthService.excludePassword l).lookup "hashedRefreshToken" = none := by
  induction l with
  | nil => exact ⟨rfl, rfl⟩
  | cons kv t ih =>
    obtain ⟨k, v⟩ := kv
    by_cases h1 : k = "password"
    · have hdrop : AuthService.excludePassword ((k, v) :: t) =
          AuthService.excludePassword t := by
        simp [AuthService.excludePassword, List.filter_cons, h1]
      rw [hdrop]
      exact ih
    · by_cases h2 : k = "hashedRefreshToken"
      · have hdrop : AuthService.excludePassword ((k, v) :: t) =
            AuthService.excludePassword t := by
          simp [AuthService.excludePassword, List.filter_cons, h2]
        rw [hdrop]
        exact ih
      · have hkeep : AuthService.excludePassword ((k, v) :: t) =
            (k, v) :: AuthService.excludePassword t := by
          simp [AuthService.excludePassword, List.filter_cons, h1, h2]
        have hk1 : ("password" == k) = false :=
          beq_eq_false_iff_ne.mpr (Ne.symm h1)
        have hk2 : ("hashedRefreshToken" == k) = false :=
          beq_eq_false_iff_ne.mpr (Ne.symm h2)
        rw [hkeep]
        constructor
        · simpa [List.lookup, hk1] using ih.1
        · simpa [List.lookup, hk2] using ih.2

/-- C10: every user object leaving the auth service — the user in a
successful login response, the user in a successful register response, and
the object returned by validateUser — carries neither the password hash nor
the hashedRefreshToken property. -/
theorem auth_responses_exclude_secrets :
    (∀ (db : Db) (email password : String) (cfg : JwtConfig) (now salt : Nat)
        (r : LoginResult) (db2 : Db),
      AuthService.login db email password cfg now salt = .ok (r, db2) →
        r.user.lookup "password" = none ∧
        r.user.lookup "hashedRefreshToken" = none) ∧
    (∀ (db : Db) (dto : CreateUserDto) (newId : String) (cfg : JwtConfig)
        (now saltP saltR : Nat) (r : LoginResult) (db2 : Db),
      AuthService.register db dto newId cfg now saltP saltR = .ok (r, db2) →
        r.user.lookup "password" = none ∧
        r.user.lookup "hashedRefreshToken" = none) ∧
    (∀ (db : Db) (email password : String) (obj : List (String × JsVal)),
      AuthService.validateUser db email password = some obj →
        obj.lookup "password" = none ∧
        obj.lookup "hashedRefreshToken" = none) := by
  refine ⟨?_, ?_, ?_⟩
  · intro db email password cfg now salt r db2 h
    unfold AuthService.login at h
    split at h
    · simp at h
    · split at h
      · simp at h
      · split at h
        · simp at h
        · split at h
          · simp at h
          · simp only [Except.ok.injEq, Prod.mk.injEq] at h
            rw [← h.1]
            exact excludePassword_lookup _
  · intro db dto newId cfg now saltP saltR r db2 h
    unfold AuthService.register at h
    split at h
    · simp at h
    · split at h
      · simp at h
      · simp only [Except.ok.injEq, Prod.mk.injEq] at h
        rw [← h.1]
        exact excludePassword_lookup _
  · intro db email password obj h
    unfold AuthService.validateUser at h
    split at h
    · simp at h
    · split at h
      · simp only [Option.some.injEq] at h
        rw [← h]
        exact excludePassword_lookup _
      · simp at h

/-- Placeholder token for extracting successful results. -/
def dummyToken : SignedToken := jwtSign { sub := "", email := "" } "" 0 0

/-- Placeholder result pair for extracting successful results. -/
def dummyPair : LoginResult × Db :=
  ({ user := [], accessToken := dummyToken, refreshToken := dummyToken },
    demoDb)

/-- The successful concrete login used by the secret-stripping witness. -/
def loginOk0 : LoginResult × Db :=
  match AuthService.login demoDb "u1@example.com" "pw" cfg0 5 7 with
  | .ok p => p
  | .error _ => dummyPair

/-- Concrete active role row for the registration witness. -/
def demoRole : Role :=
  { id := "r1", name := "admin", description := none, isActive := true }

/-- Concrete store with `demoUser` and the active role r1. -/
def demoDbReg : Db :=
  { users := [demoUser], roles := [demoRole], permissions := [],
    rolePermissions := [] }

/-- The registration input used by the secret-stripping witness. -/
def dtoNew : CreateUserDto :=
  { email := "new@example.com", password := "npw", name := "New User",
    roleId := "r1" }

/-- The successful concrete registration used by the secret-stripping
witness. -/
def registerOk0 : LoginResult × Db :=
  match AuthService.register demoDbReg dtoNew "u9" cfg0 3 0 1 with
  | .ok p => p
  | .error _ => dummyPair

/-- The successful concrete validateUser call used by the secret-stripping
witness. -/
def validateOk0 : List (String × JsVal) :=
  match AuthService.validateUser demoDb "u1@example.com" "pw" with
  | some o => o
  | none => []

/-- C10 witness: `auth_responses_exclude_secrets` applied to a concrete
successful login, registration and credential validation; each returned user
object holds neither secret property. -/
theorem auth_responses_exclude_secrets_witness :
    (loginOk0.1.user.lookup "password" = none ∧
      loginOk0.1.user.lookup "hashedRefreshToken" = none) ∧
    (registerOk0.1.user.lookup "password" = none ∧
      registerOk0.1.user.lookup "hashedRefreshToken" = none) ∧
    (validateOk0.lookup "password" = none ∧
      validateOk0.lookup "hashedRefreshToken" = none) :=
  ⟨auth_responses_exclude_secrets.1 demoDb "u1@example.com" "pw" cfg0 5 7
      loginOk0.1 loginOk0.2 rfl,
   auth_responses_exclude_secrets.2.1 demoDbReg dtoNew "u9" cfg0 3 0 1
      registerOk0.1 registerOk0.2 rfl,
   auth_responses_exclude_secrets.2.2 demoDb "u1@example.com" "pw"
      validateOk0 rfl⟩

/-! ## Token Validator (JWT strategies) -/

/-- Embeds `JwtStrategy.validate` (src/unnamed/part_000, the trust-the-token
variant in use): builds the request identity context purely from the token
claims — `\x7b id: payload.sub, email: payload.email, role: \x7b name:
payload.role \x7d, permissions: payload.permissions \x7d` — and never consults
the store (the store parameter reflects the injected UsersService the method
has available but does not call on this path). -/
def JwtStrategy.validate (db : Db) (payload : AuthJwtPayload) : RequestUser :=
  { id := payload.sub, email := payload.email,
    role := RoleField.robj payload.role none,
    permissions := payload.permissions }

/-- Bearer-token validation for access-protected routes: passport verifies
signature and expiry against the access secret, then the strategy validate
callback builds the identity context. -/
def validateAccessToken (db : Db) (tok : SignedToken) (cfg : JwtConfig)
    (now : Nat) : Option RequestUser :=
  (jwtVerify tok cfg.jwtSecret now).map
    (fun payload => JwtStrategy.validate db payload)

/-- Embeds `AuthService.findUserById` (second auth service revision): the
nullable id lookup returning the secret-stripped user object. -/
def AuthService.findUserById (db : Db) (id : String) :
    Option (List (String × JsVal)) :=
  (db.findById id).map (fun u => AuthService.excludePassword u.toObj)

/-- Embeds the database-fetching `JwtStrategy.validate` variant
(src/unnamed/part_001): loads the user by the token subject and rejects
(none) only when the row is missing; the isActive flag is not consulted. -/
def JwtStrategyDb.validate (db : Db) (payload : AuthJwtPayload) :
    Option (List (String × JsVal)) :=
  AuthService.findUserById db payload.sub

/-- Toggling the active flag of one identity does not change which id
lookups succeed. -/
theorem findById_isSome_setActive (db : Db) (id x : String) (b : Bool) :
    ((db.setActive id b).findById x).isSome = (db.findById x).isSome := by
  unfold Db.setActive Db.findById
  rw [List.find?_map]
  have hp : ((fun u : UserRec => u.id == x) ∘ (fun u : UserRec =>
      if u.id == id then { u with isActive := b } else u)) =
      (fun u : UserRec => u.id == x) := by
    funext u
    cases h : u.id == id <;> simp [Function.comp, h]
  rw [hp]
  cases db.users.find? (fun u => u.id == x) <;> rfl

/-- C9: access-token validation is insensitive to the live active flag of
the identity. Two validation runs over stores differing only in the active
flag of one identity produce identical outcomes for the trust-the-token strategy and
identical accept/reject decisions for the database-fetching variant; in
particular an unexpired, correctly signed token of a deactivated identity is
still accepted. -/
theorem access_validation_ignores_active_flag (db : Db) (uid : String)
    (b c : Bool) (tok : SignedToken) (cfg : JwtConfig) (now : Nat)
    (payload : AuthJwtPayload) (e : Nat) :
    validateAccessToken (db.setActive uid b) tok cfg now =
      validateAccessToken (db.setActive uid c) tok cfg now ∧
    (JwtStrategyDb.validate (db.setActive uid b) payload).isSome =
      (JwtStrategyDb.validate (db.setActive uid c) payload).isSome ∧
    (tok.secret = cfg.jwtSecret → tok.claims.exp = some e → now < e →
      (validateAccessToken (db.setActive uid false) tok cfg now).isSome =
        true) := by
  refine ⟨rfl, ?_, fun hs he hn => ?_⟩
  · unfold JwtStrategyDb.validate AuthService.findUserById
    simp only [Option.isSome_map']
    exact (findById_isSome_setActive db uid payload.sub b).trans
      (findById_isSome_setActive db uid payload.sub c).symm
  · unfold validateAccessToken jwtVerify
    rw [hs, he]
    simp [hn]

/-- Concrete unexpired access token for the C9 witness, signed with the
access secret of `cfg0` and expiring at time 900. -/
def tok0 : SignedToken :=
  jwtSign { sub := "u1", email := "u1@example.com" } "access-secret" 900 0

/-- C9 witness: `access_validation_ignores_active_flag` applied at the
concrete store in which u1 has been deactivated: the still-unexpired access
token tok0 is accepted at time 50. -/
theorem access_validation_ignores_active_flag_witness :
    (validateAccessToken (demoDb.setActive "u1" false) tok0 cfg0 50).isSome =
      true :=
  (access_validation_ignores_active_flag demoDb "u1" false false tok0 cfg0 50
      { sub := "u1", email := "u1@example.com" } 900).2.2 rfl rfl (by decide)

/-! ## Role-permission replacement (RolesService) -/

/-- Scalar part of a role update: a provided name replaces the stored one, a
provided description replaces the stored one, absent fields are kept
(partial update semantics of `prisma.role.update`). -/
def Role.applyUpdate (r : Role) (newName newDescription : Option String) :
    Role :=
  { r with
    name := newName.getD r.name,
    description := newDescription.orElse fun _ => r.description }

/-- The store after updating the scalar fields of one role row. -/
def Db.updateRoleRow (db : Db) (id : String)
    (newName newDescription : Option String) : Db :=
  { db with roles := db.roles.map (fun r =>
      if r.id == id then r.applyUpdate newName newDescription else r) }

/-- Embeds `RolesService.updateRole` (src/unnamed/part_013): not-found when
the role is missing; updates the provided scalar fields; when a
permissionIds list is provided, deletes every RolePermission pair of the
role and inserts the new pairs (`createMany` is invoked only for a non-empty
list), all inside one `prisma.$transaction`, so the embedded operation is a
single atomic state transition: no intermediate store is produced. -/
def RolesService.updateRole (db : Db) (id : String)
    (newName newDescription : Option String)
    (permissionIds : Option (List String)) : Except AuthError Db :=
  match db.roles.find? (fun r => r.id == id) with
  | none => .error (.notFound "Role not found")
  | some _ =>
    match permissionIds with
    | none => .ok (db.updateRoleRow id newName newDescription)
    | some pids =>
      if pids.length > 0 then
        .ok { db.updateRoleRow id newName newDescription with
          rolePermissions :=
            db.rolePermissions.filter (fun rp => !(rp.1 == id)) ++
              pids.map (fun pid => (id, pid)) }
      else
        .ok { db.updateRoleRow id newName newDescription with
          rolePermissions :=
            db.rolePermissions.filter (fun rp => !(rp.1 == id)) }

/-- Embeds `RolesService.assignPermissionsToRole` (src/unnamed/part_013):
not-found when the role is missing or when the found permission rows do not
match the requested id list in number; otherwise deletes every
RolePermission pair of the role and inserts the new pairs inside one
`prisma.$transaction` (a single atomic state transition). -/
def RolesService.assignPermissionsToRole (db : Db) (roleId : String)
    (permissionIds : List String) : Except AuthError Db :=
  match db.roles.find? (fun r => r.id == roleId) with
  | none => .error (.notFound "Role not found")
  | some _ =>
    if (db.permissions.filter
        (fun p => permissionIds.contains p.id)).length !=
        permissionIds.length then
      .error (.notFound "One or more permissions not found")
    else
      .ok { db with rolePermissions :=
        db.rolePermissions.filter (fun rp => !(rp.1 == roleId)) ++
          permissionIds.map (fun pid => (roleId, pid)) }

/-- Membership in a delete-all-then-insert replacement of the pairs of one
role: the updated role holds exactly the inserted permission ids, and the
pairs of every other role are untouched. -/
theorem replace_pairs_mem (old : List (String × String)) (id : String)
    (P : List String) (pid rid : String) :
    ((id, pid) ∈ old.filter (fun rp => !(rp.1 == id)) ++
        P.map (fun p => (id, p)) ↔ pid ∈ P) ∧
    (rid ≠ id →
      ((rid, pid) ∈ old.filter (fun rp => !(rp.1 == id)) ++
          P.map (fun p => (id, p)) ↔ (rid, pid) ∈ old)) := by
  constructor
  · simp [List.mem_append, List.mem_filter, List.mem_map]
  · intro hne
    simp only [List.mem_append, List.mem_filter, List.mem_map]
    constructor
    · rintro (⟨hmem, -⟩ | ⟨p, -, heq⟩)
      · exact hmem
      · exact absurd (congrArg Prod.fst heq) (Ne.symm hne)
    · intro hmem
      left
      refine ⟨hmem, ?_⟩
      simp [hne]

/-- C8: a permission replacement through `updateRole` with a provided id
list, or through `assignPermissionsToRole`, that completes successfully
leaves the role holding exactly the requested permission ids, leaves every
pairs of every other role unchanged, and for a non-empty list leaves the role
holding at least one permission; the whole replacement is one atomic
transition of the embedded store (matching the `prisma.$transaction`
wrapping in the source), so no zero-permission intermediate state exists. -/
theorem role_permission_replacement_spec (db : Db) (id : String)
    (n d : Option String) (P : List String) (db1 db2 : Db) :
    (RolesService.updateRole db id n d (some P) = .ok db1 →
      (∀ pid, ((id, pid) ∈ db1.rolePermissions ↔ pid ∈ P)) ∧
      (∀ rid pid, rid ≠ id →
        ((rid, pid) ∈ db1.rolePermissions ↔
          (rid, pid) ∈ db.rolePermissions)) ∧
      (P ≠ [] → ∃ pid, (id, pid) ∈ db1.rolePermissions)) ∧
    (RolesService.assignPermissionsToRole db id P = .ok db2 →
      (∀ pid, ((id, pid) ∈ db2.rolePermissions ↔ pid ∈ P)) ∧
      (∀ rid pid, rid ≠ id →
        ((rid, pid) ∈ db2.rolePermissions ↔
          (rid, pid) ∈ db.rolePermissions)) ∧
      (P ≠ [] → ∃ pid, (id, pid) ∈ db2.rolePermissions)) := by
  constructor
  · intro h
    unfold RolesService.updateRole at h
    cases hf : db.roles.find? (fun r => r.id == id) with
    | none => rw [hf] at h; simp at h
    | some rl =>
      rw [hf] at h
      by_cases hlen : P.length > 0
      · have h' : (Except.ok
            { db.updateRoleRow id n d with
              rolePermissions :=
                db.rolePermissions.filter (fun rp => !(rp.1 == id)) ++
                  P.map (fun pid => (id, pid)) } :
              Except AuthError Db) = .ok db1 := by
          rw [← h]
          simp [hlen]
        simp only [Except.ok.injEq] at h'
        have hrp : db1.rolePermissions =
            db.rolePermissions.filter (fun rp => !(rp.1 == id)) ++
              P.map (fun p => (id, p)) := by
          rw [← h']
        refine ⟨fun pid => ?_, fun rid pid hne => ?_, fun hne => ?_⟩
        · rw [hrp]
          exact (replace_pairs_mem db.rolePermissions id P pid "").1
        · rw [hrp]
          exact (replace_pairs_mem db.rolePermissions id P pid rid).2 hne
        · cases P with
          | nil => exact absurd rfl hne
          | cons p t =>
            refine ⟨p, ?_⟩
            rw [hrp]
            exact (replace_pairs_mem db.rolePermissions id (p :: t) p
              "").1.mpr (List.mem_cons_self p t)
      · have hnil : P = [] := by
          simpa using hlen
        subst hnil
        have h' : (Except.ok
            { db.updateRoleRow id n d with
              rolePermissions :=
                db.rolePermissions.filter (fun rp => !(rp.1 == id)) } :
              Except AuthError Db) = .ok db1 := by
          rw [← h]
          simp
        simp only [Except.ok.injEq] at h'
        have hrp : db1.rolePermissions =
            db.rolePermissions.filter (fun rp => !(rp.1 == id)) := by
          rw [← h']
        refine ⟨fun pid => ?_, fun rid pid hne => ?_, fun hne => ?_⟩
        · rw [hrp]
          simp [List.mem_filter]
        · rw [hrp]
          simp [List.mem_filter, hne]
        · exact absurd rfl hne
  · intro h
    unfold RolesService.assignPermissionsToRole at h
    split at h
    · simp at h
    · split at h
      · simp at h
      · simp only [Except.ok.injEq] at h
        have hrp : db2.rolePermissions =
            db.rolePermissions.filter (fun rp => !(rp.1 == id)) ++
              P.map (fun p => (id, p)) := by
          rw [← h]
        refine ⟨fun pid => ?_, fun rid pid hne => ?_, fun hne => ?_⟩
        · rw [hrp]
          exact (replace_pairs_mem db.rolePermissions id P pid "").1
        · rw [hrp]
          exact (replace_pairs_mem db.rolePermissions id P pid rid).2 hne
        · cases P with
          | nil => exact absurd rfl hne
          | cons p t =>
            refine ⟨p, ?_⟩
            rw [hrp]
            exact (replace_pairs_mem db.rolePermissions id (p :: t) p
              "").1.mpr (List.mem_cons_self p t)

/-- Concrete store for the replacement witness: role r1 currently holds
permissions a and b, another role r2 holds x, and permission c exists. -/
def rolesDb : Db :=
  { users := [],
    roles := [demoRole],
    permissions :=
      [{ id := "a", name := "view_patients", category := none,
         isActive := true },
       { id := "b", name := "edit_patients", category := none,
         isActive := true },
       { id := "c", name := "manage_roles", category := none,
         isActive := true }],
    rolePermissions := [("r1", "a"), ("r1", "b"), ("r2", "x")] }

/-- Store produced by the successful updateRole replacement of the
witness. -/
def rolesDbUpd : Db :=
  match RolesService.updateRole rolesDb "r1" none none (some ["c"]) with
  | .ok d => d
  | .error _ => rolesDb

/-- Store produced by the successful assignPermissionsToRole replacement of
the witness. -/
def rolesDbAsg : Db :=
  match RolesService.assignPermissionsToRole rolesDb "r1" ["c"] with
  | .ok d => d
  | .error _ => rolesDb

/-- C8 witness: `role_permission_replacement_spec` applied to the concrete
replacement of the permission set of r1 from a and b to c, through both
service operations: r1 then holds c, no longer holds a, and the pair of r2
is intact. -/
theorem role_permission_replacement_spec_witness :
    (("r1", "c") ∈ rolesDbUpd.rolePermissions ↔ "c" ∈ ["c"]) ∧
    (("r1", "a") ∈ rolesDbUpd.rolePermissions ↔ "a" ∈ ["c"]) ∧
    (("r2", "x") ∈ rolesDbUpd.rolePermissions ↔
      ("r2", "x") ∈ rolesDb.rolePermissions) ∧
    (("r1", "c") ∈ rolesDbAsg.rolePermissions ↔ "c" ∈ ["c"]) :=
  ⟨((role_permission_replacement_spec rolesDb "r1" none none ["c"]
      rolesDbUpd rolesDbAsg).1 rfl).1 "c",
   ((role_permission_replacement_spec rolesDb "r1" none none ["c"]
      rolesDbUpd rolesDbAsg).1 rfl).1 "a",
   ((role_permission_replacement_spec rolesDb "r1" none none ["c"]
      rolesDbUpd rolesDbAsg).1 rfl).2.1 "r2" "x" (by decide),
   ((role_permission_replacement_spec rolesDb "r1" none none ["c"]
      rolesDbUpd rolesDbAsg).2 rfl).1 "c"⟩
